import Mathlib

/-!
Verification development for the watchcat workflow engine.

Shallow embedding, in Lean 4, of the parts of the repository that the
specification's claims are about:

* `src/watchcat/workflow/state.py` — the workflow `State` enumeration;
* `src/watchcat/workflow/automaton.py` — `Automaton.run`, its stage
  handlers and `Automaton._handle_error`;
* `src/watchcat/workflow/checkpoint/manager.py` and `serializers.py` —
  `CheckpointManager.save_checkpoint` / `restore_checkpoint` over the
  placeholder store;
* `src/watchcat/workflow/plugins/registry.py` and `factory.py` —
  `PluginRegistry._register_sources` with the placeholder
  `PluginFactory.create_source`;
* `src/watchcat/autoretry.py` — `AutoRetry.call`;
* `src/watchcat/puller/arxiv.py` — the `_CombinedFilter` /
  `_InvertedFilter` boolean algebra of source filters and
  `ArxivFilter.__call__`;
* `src/watchcat/puller/arxiv_paper.py` — `ArxivPaper` and its
  serialization round trip.

Python exceptions are modelled with `Except`; Python `None` results with
`Option`.  Machine-level concerns (actual SQLite storage, network, logging)
do not influence any of the claimed properties and are represented by the
same placeholder behaviour exhibited by the source (the checkpoint store
and the plugin factory in the source are explicit no-op placeholders, and
they are embedded as such).
-/

namespace Watchcat

/-! ## Workflow state (`src/watchcat/workflow/state.py`) -/

/-- The `State` enumeration of the workflow automaton, in declaration
order: `INIT`, `PULLING`, `SUMMARIZING`, `EVALUATING`, `FEEDBACK`,
`DONE`. -/
inductive State where
  | INIT
  | PULLING
  | SUMMARIZING
  | EVALUATING
  | FEEDBACK
  | DONE
deriving DecidableEq, Repr

/-- Position of a state in the pipeline order; used to express the
"strictly monotonically increasing" checkpoint property. -/
def State.idx : State → Nat
  | .INIT => 0
  | .PULLING => 1
  | .SUMMARIZING => 2
  | .EVALUATING => 3
  | .FEEDBACK => 4
  | .DONE => 5

/-! ## Python error values

A small inductive of the Python exception values that the embedded code
can produce.  `attributeError` models `AttributeError` (attribute lookup
failure), `valueError` models `ValueError`, `keyError` models `KeyError`.
-/

inductive PyError where
  | attributeError
  | valueError (msg : String)
  | keyError (key : String)
deriving DecidableEq, Repr

/-! ## Source-filter boolean algebra (`src/watchcat/puller/arxiv.py`)

`_CombinedFilter` stores a left filter, a right filter and an operator
string; its `__call__` dispatches on the operator, returning
`left(post) and right(post)` for `"AND"`, `left(post) or right(post)` for
`"OR"`, and raising `ValueError` for anything else.  `_InvertedFilter`
stores one filter and negates its result.  All three filter classes
(`_CombinedFilter`, `_InvertedFilter`, `ArxivFilter`) define `__and__` and
`__or__` as construction of a `_CombinedFilter` with operator `"AND"` /
`"OR"`; `_CombinedFilter.__invert__` and `ArxivFilter.__invert__` build an
`_InvertedFilter`, while `_InvertedFilter.__invert__` returns the wrapped
filter directly.

A leaf holds an arbitrary base filter as a (possibly raising) predicate on
posts, so the algebra covers `ArxivFilter` and any other `SourceFilter`.
-/

inductive SFilter (Post : Type) where
  | leaf (call : Post → Except PyError Bool)
  | combined (left right : SFilter Post) (operator : String)
  | inverted (inner : SFilter Post)

variable {Post : Type}

/-- `__and__`: every filter class combines with `_CombinedFilter(self, other, "AND")`. -/
def SFilter.fand (f g : SFilter Post) : SFilter Post :=
  .combined f g "AND"

/-- `__or__`: every filter class combines with `_CombinedFilter(self, other, "OR")`. -/
def SFilter.f_or (f g : SFilter Post) : SFilter Post :=
  .combined f g "OR"

/-- `__invert__`: `_InvertedFilter.__invert__` returns the wrapped filter;
all other filter classes return `_InvertedFilter(self)`. -/
def SFilter.finv : SFilter Post → SFilter Post
  | .inverted g => g
  | f => .inverted f

/-- `__call__` of the filter classes.  The `"AND"` / `"OR"` cases mirror
Python's short-circuiting `and` / `or` on boolean operands; an unknown
operator raises `ValueError`, and `_InvertedFilter.__call__` returns
`not self.filter_obj(post)`. -/
def SFilter.eval : SFilter Post → Post → Except PyError Bool
  | .leaf c, p => c p
  | .combined l r op, p =>
      if op = "AND" then do
        let a ← l.eval p
        if a then r.eval p else pure false
      else if op = "OR" then do
        let a ← l.eval p
        if a then pure true else r.eval p
      else
        .error (.valueError ("Unknown operator: " ++ op))
  | .inverted f, p => do
      let a ← f.eval p
      pure (!a)

/-- Inverting a filter negates its evaluation (also when the filter is
itself an `_InvertedFilter`, whose `__invert__` unwraps instead of
wrapping). -/
theorem SFilter.eval_finv (f : SFilter Post) (p : Post) :
    f.finv.eval p = Except.map (fun b => !b) (f.eval p) := by
  cases f with
  | leaf c =>
      simp only [finv, eval]
      cases c p <;> simp [Except.map, Except.bind, Bind.bind, pure, Except.pure]
  | combined l r op =>
      simp only [finv, eval]
      cases h : eval (.combined l r op) p <;>
        simp [eval] at h <;>
        simp [Except.map, Except.bind, Bind.bind, pure, Except.pure, h]
  | inverted g =>
      simp only [finv, eval]
      cases h : g.eval p <;>
        simp [Except.map, Except.bind, Bind.bind, pure, Except.pure, h]

/-- `"AND"` combination evaluates like Python's short-circuit `and`. -/
theorem SFilter.eval_fand (f g : SFilter Post) (p : Post) :
    (f.fand g).eval p
      = (f.eval p >>= fun a => if a then g.eval p else pure false) := rfl

/-- `"OR"` combination evaluates like Python's short-circuit `or`. -/
theorem SFilter.eval_f_or (f g : SFilter Post) (p : Post) :
    (f.f_or g).eval p
      = (f.eval p >>= fun a => if a then pure true else g.eval p) := rfl

/-- Claim C8: `SourceFilter` composition via `__and__`, `__or__` and
`__invert__` has standard boolean-algebra semantics as predicates over
posts: for all filters `f`, `g`, `h` and every post `p`, `(f & g) & h`
and `f & (g & h)` evaluate to the same result on `p`, `~(f & g)`
evaluates the same as `(~f) | (~g)` on `p` (De Morgan), and `~~f`
evaluates the same as `f` on `p` (double-negation elimination). -/
theorem c8_filter_boolean_algebra :
    ∀ (Post : Type) (f g h : SFilter Post) (p : Post),
      ((f.fand g).fand h).eval p = (f.fand (g.fand h)).eval p
      ∧ ((f.fand g).finv).eval p = ((f.finv).f_or (g.finv)).eval p
      ∧ ((f.finv).finv).eval p = f.eval p := by
  intro Post f g h p
  refine ⟨?_, ?_, ?_⟩
  · simp only [SFilter.eval_fand]
    cases hf : f.eval p with
    | error e => simp [Except.bind, Bind.bind]
    | ok a => cases a <;> simp [Except.bind, Bind.bind, pure, Except.pure]
  · rw [SFilter.eval_finv, SFilter.eval_f_or, SFilter.eval_finv, SFilter.eval_finv,
      SFilter.eval_fand]
    cases hf : f.eval p with
    | error e => simp [Except.map, Except.bind, Bind.bind]
    | ok a => cases a <;> simp [Except.map, Except.bind, Bind.bind, pure, Except.pure]
  · rw [SFilter.eval_finv, SFilter.eval_finv]
    cases hf : f.eval p <;> simp [Except.map]

/-! ## AutoRetry (`src/watchcat/autoretry.py`)

`AutoRetry.call` runs `while retry_count < self.max_retrys`: it invokes
the wrapped function; on success it decrements `self.retry_delay` by
`max(self.__init_retry_delay, self.decrement_num)` and returns the
result; on failure it appends the exception to `exceptions`, increments
`retry_count`, raises `AutoRetryError(..., exceptions)` once
`retry_count >= self.max_retrys`, and otherwise multiplies the delay by
`increment_factor`, sleeps, and loops.  `self.__init_retry_delay` is the
constant `10.0` fixed in `__init__`.

The wrapped function is modelled as a map from the invocation index to
its outcome.  Delays are exact rationals: the source uses Python floats,
but the claimed properties concern only which arithmetic is applied, not
rounding.  The loop is embedded with `remaining = max_retrys -
retry_count` as the recursion measure; `remaining = 0` right after a
failure increments the counter is exactly the source's
`retry_count >= self.max_retrys` check.
-/

/-- Observable outcome of one `AutoRetry.call` invocation.  `success`
returns the wrapped value together with the total number of invocations
of the wrapped function, the accumulated `exceptions` list (whose length
is the final `retry_count`) and the final `retry_delay`.  `raised`
models `raise AutoRetryError(..., exceptions=exceptions)`.
`fellThrough` models falling off the `while` loop without entering it
(Python implicitly returns `None`); it occurs only for
`max_retrys = 0`. -/
inductive CallResult (α Exc : Type) where
  | success (value : α) (invocations : Nat) (failures : List Exc) (finalDelay : ℚ)
  | raised (failures : List Exc) (invocations : Nat) (finalDelay : ℚ)
  | fellThrough (invocations : Nat) (finalDelay : ℚ)
deriving DecidableEq, Repr

namespace AutoRetry

variable {α Exc : Type}

/-- The body of the `while retry_count < self.max_retrys` loop of
`AutoRetry.call`, recursing on `remaining = max_retrys - retry_count`. -/
def callLoop (f : Nat → Except Exc α) (initDelay decNum incFactor : ℚ) :
    Nat → ℚ → List Exc → Nat → CallResult α Exc
  | 0, delay, _, inv => .fellThrough inv delay
  | remaining + 1, delay, excs, inv =>
      match f inv with
      | .ok v => .success v (inv + 1) excs (delay - max initDelay decNum)
      | .error e =>
          if remaining = 0 then
            .raised (excs ++ [e]) (inv + 1) delay
          else
            callLoop f initDelay decNum incFactor remaining (delay * incFactor)
              (excs ++ [e]) (inv + 1)

/-- `AutoRetry.call`: `exceptions` starts empty, `retry_count` starts at
`0`, and the current delay state `retryDelay` (equal to the fixed initial
delay `10` right after construction or `reset`) is threaded through. -/
def call (f : Nat → Except Exc α) (maxRetrys : Nat) (incFactor decNum : ℚ)
    (retryDelay : ℚ) : CallResult α Exc :=
  callLoop f 10 decNum incFactor maxRetrys retryDelay [] 0

/-- If the wrapped function fails for the first `k` invocations and then
succeeds, the loop returns that success after exactly `k + 1` further
invocations, with `k` more accumulated failures. -/
theorem callLoop_success (f : Nat → Except Exc α) (initDelay decNum incFactor : ℚ) :
    ∀ (k remaining : Nat) (delay : ℚ) (excs : List Exc) (inv : Nat) (v : α),
      k < remaining →
      (∀ i, i < k → ∃ e, f (inv + i) = Except.error e) →
      f (inv + k) = Except.ok v →
      ∃ (fl : List Exc) (fd : ℚ),
        callLoop f initDelay decNum incFactor remaining delay excs inv
          = .success v (inv + k + 1) fl fd ∧ fl.length = excs.length + k := by
  intro k
  induction k with
  | zero =>
      intro remaining delay excs inv v hk hfail hok
      obtain ⟨r, rfl⟩ : ∃ r, remaining = r + 1 := ⟨remaining - 1, by omega⟩
      have hok' : f inv = Except.ok v := by simpa using hok
      exact ⟨excs, delay - max initDelay decNum, by simp [callLoop, hok'], by omega⟩
  | succ k ih =>
      intro remaining delay excs inv v hk hfail hok
      obtain ⟨r, rfl⟩ : ∃ r, remaining = r + 1 := ⟨remaining - 1, by omega⟩
      obtain ⟨e, he⟩ := hfail 0 (by omega)
      have he' : f inv = Except.error e := by simpa using he
      have hr : ¬ r = 0 := by omega
      have step :
          callLoop f initDelay decNum incFactor (r + 1) delay excs inv
            = callLoop f initDelay decNum incFactor r (delay * incFactor)
                (excs ++ [e]) (inv + 1) := by
        simp [callLoop, he', hr]
      obtain ⟨fl, fd, hcl, hlen⟩ :=
        ih r (delay * incFactor) (excs ++ [e]) (inv + 1) v (by omega)
          (fun i hi => by
            have h := hfail (i + 1) (by omega)
            have harith : inv + (i + 1) = inv + 1 + i := by omega
            rwa [harith] at h)
          (by
            have harith : inv + (k + 1) = inv + 1 + k := by omega
            rwa [harith] at hok)
      refine ⟨fl, fd, ?_, ?_⟩
      · rw [step, hcl]
        congr 1
        omega
      · simp at hlen
        omega

/-- If the wrapped function fails on every invocation, the loop raises
carrying every accumulated failure in invocation order. -/
theorem callLoop_allFail (f : Nat → Except Exc α) (errs : Nat → Exc)
    (initDelay decNum incFactor : ℚ)
    (hf : ∀ i, f i = Except.error (errs i)) :
    ∀ (remaining : Nat) (delay : ℚ) (excs : List Exc) (inv : Nat),
      1 ≤ remaining →
      ∃ fd, callLoop f initDelay decNum incFactor remaining delay excs inv
        = .raised (excs ++ (List.range' inv remaining).map errs) (inv + remaining) fd := by
  intro remaining
  induction remaining with
  | zero => intro _ _ _ h; omega
  | succ r ih =>
      intro delay excs inv _
      by_cases hr : r = 0
      · subst hr
        exact ⟨delay, by simp [callLoop, hf inv, List.range'_one]⟩
      · have step :
            callLoop f initDelay decNum incFactor (r + 1) delay excs inv
              = callLoop f initDelay decNum incFactor r (delay * incFactor)
                  (excs ++ [errs inv]) (inv + 1) := by
          simp [callLoop, hf inv, hr]
        obtain ⟨fd, hfd⟩ := ih (delay * incFactor) (excs ++ [errs inv]) (inv + 1) (by omega)
        refine ⟨fd, ?_⟩
        rw [step, hfd]
        congr 1
        · rw [List.range'_succ, List.map_cons, List.append_assoc, List.singleton_append]
        · omega

end AutoRetry

/-- Claim C5: for `AutoRetry` with maximum attempt count `N`: if the
wrapped function fails exactly `k < N` times and then succeeds, `call()`
returns the success value and the wrapped function was invoked exactly
`k + 1` times (the accumulated failure list has length `k`); if the
wrapped function always fails, `call()` raises an aggregate error after
exactly `N` invocations, and the raised error's list of accumulated
failures is `[errs 0, ..., errs (N-1)]` — length `N`, failure order
preserved. -/
theorem c5_autoretry_attempt_counts :
    (∀ (α Exc : Type) (f : Nat → Except Exc α) (N k : Nat) (v : α)
        (g d cur : ℚ),
      k < N →
      (∀ i, i < k → ∃ e, f i = Except.error e) →
      f k = Except.ok v →
      ∃ fl fd, AutoRetry.call f N g d cur = .success v (k + 1) fl fd
        ∧ fl.length = k)
    ∧ (∀ (α Exc : Type) (f : Nat → Except Exc α) (errs : Nat → Exc) (N : Nat)
        (g d cur : ℚ),
      1 ≤ N →
      (∀ i, f i = Except.error (errs i)) →
      ∃ fd, AutoRetry.call f N g d cur
        = .raised ((List.range N).map errs) N fd
        ∧ ((List.range N).map errs).length = N) := by
  constructor
  · intro α Exc f N k v g d cur hk hfail hok
    obtain ⟨fl, fd, hcl, hlen⟩ :=
      AutoRetry.callLoop_success f 10 d g k N cur [] 0 v hk
        (fun i hi => by simpa using hfail i hi) (by simpa using hok)
    refine ⟨fl, fd, ?_, by simpa using hlen⟩
    rw [AutoRetry.call, hcl]
    congr 1
    omega
  · intro α Exc f errs N g d cur hN hf
    obtain ⟨fd, hfd⟩ :=
      AutoRetry.callLoop_allFail f errs 10 d g hf N cur [] 0 hN
    refine ⟨fd, ?_, by simp⟩
    rw [AutoRetry.call, hfd]
    congr 1
    · rw [List.nil_append, List.range_eq_range']
    · omega

/-- Closed witness for C5: a function failing once then returning `7`
succeeds on the second invocation with one accumulated failure; a
function that always fails with `"boom"` raises after two invocations
with both failures recorded. -/
theorem c5_autoretry_attempt_counts_witness :
    (∃ fl fd,
      AutoRetry.call (fun i => if i = 0 then Except.error "e0" else Except.ok 7)
          3 2 5 10
        = .success 7 2 fl fd ∧ fl.length = 1)
    ∧ (∃ fd,
      AutoRetry.call (fun _ => (Except.error "boom" : Except String Nat)) 2 2 5 10
        = .raised ((List.range 2).map (fun _ => "boom")) 2 fd
        ∧ ((List.range 2).map (fun _ => ("boom" : String))).length = 2) :=
  ⟨c5_autoretry_attempt_counts.1 Nat String
      (fun i => if i = 0 then Except.error "e0" else Except.ok 7) 3 1 7 2 5 10
      (by omega)
      (fun i hi => by
        have : i = 0 := by omega
        subst this
        exact ⟨"e0", rfl⟩)
      rfl,
    c5_autoretry_attempt_counts.2 Nat String
      (fun _ => (Except.error "boom" : Except String Nat)) (fun _ => "boom") 2 2 5 10
      (by omega) (fun _ => rfl)⟩

/-- Claim C6: on a successful wrapped call, `AutoRetry.call` decreases
the current delay state by `max(initial_delay, decrement_num)` and
returns the result without increasing the attempt counter (the failure
list stays empty); the decrement is applied without clamping, so
starting from the initial delay `10` a single success drives the delay
to zero or negative. -/
theorem c6_autoretry_success_delay :
    ∀ (α Exc : Type) (f : Nat → Except Exc α) (v : α) (N : Nat) (g d : ℚ),
      1 ≤ N →
      f 0 = Except.ok v →
      AutoRetry.call f N g d 10 = .success v 1 [] (10 - max 10 d)
      ∧ (10 : ℚ) - max 10 d ≤ 0 := by
  intro α Exc f v N g d hN h0
  obtain ⟨M, rfl⟩ : ∃ M, N = M + 1 := ⟨N - 1, by omega⟩
  refine ⟨by simp [AutoRetry.call, AutoRetry.callLoop, h0], ?_⟩
  have h10 : (10 : ℚ) ≤ max 10 d := le_max_left _ _
  linarith

/-- Closed witness for C6: a call that succeeds immediately with
`decrement_num = 3` ends with delay `10 - max 10 3 = 0 ≤ 0` and an empty
failure list. -/
theorem c6_autoretry_success_delay_witness :
    AutoRetry.call (fun _ => (Except.ok 0 : Except String Nat)) 1 2 3 10
      = .success 0 1 [] (10 - max 10 3)
    ∧ (10 : ℚ) - max 10 3 ≤ 0 :=
  c6_autoretry_success_delay Nat String (fun _ => Except.ok 0) 0 1 2 3 (by omega) rfl

/-! ## Automaton (`src/watchcat/workflow/automaton.py`)

`Automaton.run` wraps its whole `while self.state is not State.DONE` loop
in a single `try`.  Each iteration dispatches the handler for the current
state and then saves a checkpoint (the checkpoint manager exists from the
end of `_initialize` onward; its store is a no-op, see the
`CheckpointManager` section, so only the sequence of saved snapshots is
observable).  The `except` block records `last_error`, calls
`_handle_error(e)` — which increments `retry_count` and, when
`retry_count > max_retries`, sets `state = DONE` — and then unconditionally
re-raises `e`.

Stage handlers are embedded through an environment of external outcomes:

* `initResult` — the effects of `_initialize` that can raise
  (configuration loading, datastore opening, plugin registration);
  `restore_checkpoint` always returns `None` on the placeholder store, so
  a fresh run never overwrites its fields from a checkpoint;
* `sourcePulls` — per registered source, the outcome of
  `get_source_filters` + `source.pull(*filters)`; `_pull_data` wraps each
  source in `try/except continue`;
* `process` — `_process_post_with_plugins` (plus `_store_insight`) for one
  post; `None` results are not appended; `_summarize` wraps each post in
  `try/except continue`;
* `now` — `datetime.now(UTC).isoformat()` as observed by
  `_evaluate_model`.
-/

/-- The `user_model["metrics"]` record built by `_evaluate_model`. -/
structure Metrics where
  totalInsightsGenerated : Nat
  lastUpdate : Option String
deriving DecidableEq, Repr

/-- `user_model`: an initially empty mapping; the only key the automaton
ever writes is `"metrics"`, so the model tracks whether that key is
present. -/
abbrev UserModel := Option Metrics

/-- A notification record as built by `_handle_feedback`. -/
structure Notification where
  ntype : String
  message : String
  channels : List String
deriving DecidableEq, Repr

/-- The mutable fields of an `Automaton` instance that the claims are
about. -/
structure Auto (P I E : Type) where
  state : State
  retryCount : Nat
  maxRetries : Nat
  pulledPosts : List P
  processedInsights : List I
  userModel : UserModel
  notificationsSent : List Notification
  lastError : Option E
deriving DecidableEq

namespace Automaton

variable {P I E : Type}

/-- A freshly constructed `Automaton`: `state = INIT`, `retry_count = 0`,
`max_retries = 3`, empty accumulators, no error. -/
def freshAuto : Auto P I E :=
  { state := .INIT
    retryCount := 0
    maxRetries := 3
    pulledPosts := []
    processedInsights := []
    userModel := none
    notificationsSent := []
    lastError := none }

/-- External outcomes a run interacts with (see section comment). -/
structure Env (P I E : Type) where
  initResult : Except E Unit
  sourcePulls : List (Except E (List P))
  process : P → Except E (Option I)
  now : String
  unsupportedStateError : E

/-- `_initialize`: configuration loading, datastore opening and plugin
registration may raise; `restore_checkpoint` yields `None` on the
placeholder store (no fields overwritten); finally `state = PULLING`. -/
def initializeH (env : Env P I E) (a : Auto P I E) : Except E (Auto P I E) :=
  match env.initResult with
  | .error e => .error e
  | .ok _ => .ok { a with state := .PULLING }

/-- `_pull_data`: reset `pulled_posts`, then for each source append its
pulled posts, skipping (logging) any source whose pull raises; finally
`state = SUMMARIZING`.  Never raises out of the stage. -/
def pullDataH (env : Env P I E) (a : Auto P I E) : Auto P I E :=
  let posts := env.sourcePulls.foldl
    (fun acc r =>
      match r with
      | .ok ps => acc ++ ps
      | .error _ => acc)
    []
  { a with pulledPosts := posts, state := .SUMMARIZING }

/-- `_summarize`: reset `processed_insights`, then for each pulled post
append the produced insight when it is not `None`, skipping (logging) any
post whose processing raises; finally `state = EVALUATING`.  Never raises
out of the stage. -/
def summarizeH (env : Env P I E) (a : Auto P I E) : Auto P I E :=
  let insights := a.pulledPosts.foldl
    (fun acc p =>
      match env.process p with
      | .ok (some i) => acc ++ [i]
      | .ok none => acc
      | .error _ => acc)
    []
  { a with processedInsights := insights, state := .EVALUATING }

/-- `_evaluate_model`: create `user_model["metrics"]` if absent, add the
number of processed insights to `total_insights_generated`, stamp
`last_update`; finally `state = FEEDBACK`. -/
def evaluateModelH (env : Env P I E) (a : Auto P I E) : Auto P I E :=
  let m := a.userModel.getD ⟨0, none⟩
  { a with
      userModel := some
        ⟨m.totalInsightsGenerated + a.processedInsights.length, some env.now⟩
      state := .FEEDBACK }

/-- `_handle_feedback`: build one info notification when any insights
exist, send and record it; finally `state = DONE`. -/
def handleFeedbackH (a : Auto P I E) : Auto P I E :=
  let notifications :=
    if 0 < a.processedInsights.length then
      [⟨"info",
        "Processed " ++ toString a.processedInsights.length ++ " insights",
        ["log"]⟩]
    else ([] : List Notification)
  { a with
      notificationsSent := a.notificationsSent ++ notifications
      state := .DONE }

/-- The state dispatch of the `run` loop body.  The `DONE` arm models the
`else: raise AutomatonError(...)` branch; it is unreachable because the
loop guard excludes `DONE`. -/
def stageHandler (env : Env P I E) : State → Auto P I E → Except E (Auto P I E)
  | .INIT, a => initializeH env a
  | .PULLING, a => .ok (pullDataH env a)
  | .SUMMARIZING, a => .ok (summarizeH env a)
  | .EVALUATING, a => .ok (evaluateModelH env a)
  | .FEEDBACK, a => .ok (handleFeedbackH a)
  | .DONE, _ => .error env.unsupportedStateError

/-- How `run` ends: reaching `DONE` normally, re-raising an exception, or
(an artifact of the fuel-based embedding) running out of fuel. -/
inductive RunOutcome (E : Type) where
  | completed
  | raised (e : E)
  | outOfFuel
deriving DecidableEq

/-- Result of a `run` invocation: its outcome, the final attribute
values, the sequence of states the loop executed (with the terminal
`DONE` the guard observed), and the `state` field of every checkpoint
passed to `save_checkpoint`. -/
structure RunRes (P I E : Type) where
  outcome : RunOutcome E
  auto : Auto P I E
  visited : List State
  checkpoints : List State
deriving DecidableEq

/-- The `except` path of `run`: record `last_error`, then
`_handle_error`: increment `retry_count`; once it exceeds `max_retries`,
force `state = DONE`.  (`run` then re-raises unconditionally.) -/
def handleError (a : Auto P I E) (e : E) : Auto P I E :=
  let a₁ := { a with lastError := some e }
  let rc := a₁.retryCount + 1
  if rc ≤ a₁.maxRetries then { a₁ with retryCount := rc }
  else { a₁ with retryCount := rc, state := .DONE }

/-- The `while self.state is not State.DONE` loop of `run`, with fuel.
On a handler exception the loop is exited and the exception re-raised —
this is the source's control flow: the `try` wraps the whole loop, so no
iteration follows a failure. -/
def runLoop (handler : State → Auto P I E → Except E (Auto P I E)) :
    Nat → Auto P I E → List State → List State → RunRes P I E
  | 0, a, visited, cps => ⟨.outOfFuel, a, visited, cps⟩
  | fuel + 1, a, visited, cps =>
      if a.state = .DONE then ⟨.completed, a, visited ++ [State.DONE], cps⟩
      else
        match handler a.state a with
        | .error e => ⟨.raised e, handleError a e, visited ++ [a.state], cps⟩
        | .ok a' => runLoop handler fuel a' (visited ++ [a.state]) (cps ++ [a'.state])

/-- `Automaton.run()`. -/
def run (handler : State → Auto P I E → Except E (Auto P I E)) (fuel : Nat)
    (a : Auto P I E) : RunRes P I E :=
  runLoop handler fuel a [] []

end Automaton

/-- Environment of a fresh run whose `Init` stage raises (configuration
loading fails): the input exhibiting claim C1's divergence. -/
def c1Env : Automaton.Env Unit Unit String :=
  { initResult := .error "configuration loading failed"
    sourcePulls := []
    process := fun _ => .ok none
    now := ""
    unsupportedStateError := "AutomatonError: Unsupported state" }

/-- Claim C1 (evaluation at the failing input): on a fresh automaton
(`retry_count = 0`, `max_retries = 3`) whose first stage handler raises,
`run()` lets that very first error cross the `run()` boundary —
`retry_count` is `1 ≤ max_retries = 3`, the state is left at `INIT` (no
force-transition to `Done`), and no second loop iteration occurs (the
loop executed exactly one state).  The claim instead says such an error
is absorbed and the same stage retried, with only the
post-`max_retries` error escaping; the source's `except` block re-raises
unconditionally after `_handle_error`, so there is no retry iteration. -/
theorem c1_run_reraises_first_error :
    (Automaton.run (Automaton.stageHandler c1Env) 10 Automaton.freshAuto).outcome
        = .raised "configuration loading failed"
    ∧ (Automaton.run (Automaton.stageHandler c1Env) 10 Automaton.freshAuto).auto.retryCount = 1
    ∧ (Automaton.run (Automaton.stageHandler c1Env) 10 Automaton.freshAuto).auto.maxRetries = 3
    ∧ (Automaton.run (Automaton.stageHandler c1Env) 10 Automaton.freshAuto).auto.state
        = State.INIT
    ∧ (Automaton.run (Automaton.stageHandler c1Env) 10 Automaton.freshAuto).visited
        = [State.INIT] :=
  ⟨rfl, rfl, rfl, rfl, rfl⟩

/-- Claim C2: for every environment (valid configuration), a fresh
`Automaton.run()` in which no stage handler fails visits the workflow
states in exactly the order `Init, Pulling, Summarizing, Evaluating,
Feedback, Done`, completes normally, and the sequence of states recorded
across checkpoints is strictly monotonically increasing in that order
(no state revisited). -/
theorem c2_fresh_run_visits_states_in_order :
    ∀ (P I E : Type) (env : Automaton.Env P I E) (fuel : Nat),
      env.initResult = Except.ok () →
      6 ≤ fuel →
      (Automaton.run (Automaton.stageHandler env) fuel Automaton.freshAuto).visited
          = [State.INIT, .PULLING, .SUMMARIZING, .EVALUATING, .FEEDBACK, .DONE]
      ∧ (Automaton.run (Automaton.stageHandler env) fuel Automaton.freshAuto).checkpoints
          = [State.PULLING, .SUMMARIZING, .EVALUATING, .FEEDBACK, .DONE]
      ∧ List.Chain' (fun s t => s.idx < t.idx)
          (Automaton.run (Automaton.stageHandler env) fuel Automaton.freshAuto).checkpoints
      ∧ (Automaton.run (Automaton.stageHandler env) fuel Automaton.freshAuto).outcome
          = .completed := by
  intro P I E env fuel hinit hfuel
  obtain ⟨k, hk⟩ := Nat.exists_eq_add_of_le hfuel
  rw [Nat.add_comm] at hk
  subst hk
  refine ⟨?_, ?_, ?_, ?_⟩ <;>
    simp [Automaton.run, Automaton.runLoop, Automaton.stageHandler, Automaton.initializeH,
      hinit, Automaton.pullDataH, Automaton.summarizeH, Automaton.evaluateModelH,
      Automaton.handleFeedbackH, Automaton.freshAuto, State.idx]

/-- A trivial environment whose initialization succeeds, for the C2
witness. -/
def c2Env : Automaton.Env Unit Unit String :=
  { initResult := .ok ()
    sourcePulls := []
    process := fun _ => .ok none
    now := "2026-01-01T00:00:00+00:00"
    unsupportedStateError := "AutomatonError: Unsupported state" }

/-- Closed witness for C2 at a concrete environment and fuel. -/
theorem c2_fresh_run_visits_states_in_order_witness :
    (Automaton.run (Automaton.stageHandler c2Env) 6 Automaton.freshAuto).visited
        = [State.INIT, .PULLING, .SUMMARIZING, .EVALUATING, .FEEDBACK, .DONE]
    ∧ (Automaton.run (Automaton.stageHandler c2Env) 6 Automaton.freshAuto).checkpoints
        = [State.PULLING, .SUMMARIZING, .EVALUATING, .FEEDBACK, .DONE]
    ∧ List.Chain' (fun s t => s.idx < t.idx)
        (Automaton.run (Automaton.stageHandler c2Env) 6 Automaton.freshAuto).checkpoints
    ∧ (Automaton.run (Automaton.stageHandler c2Env) 6 Automaton.freshAuto).outcome
        = .completed :=
  c2_fresh_run_visits_states_in_order Unit Unit String c2Env 6 rfl (by omega)

/-- Claim C7: in the `Summarizing` stage, a per-post processing failure
is isolated: with three pulled posts where processing the second raises,
the stage handler returns normally (no exception escapes), produces
exactly the two insights from posts 1 and 3 in order, and advances to
`Evaluating`. -/
theorem c7_summarize_partial_failure_isolation :
    ∀ (P I E : Type) (env : Automaton.Env P I E) (a : Auto P I E)
      (p₁ p₂ p₃ : P) (i₁ i₃ : I) (e : E),
      a.pulledPosts = [p₁, p₂, p₃] →
      env.process p₁ = Except.ok (some i₁) →
      env.process p₂ = Except.error e →
      env.process p₃ = Except.ok (some i₃) →
      ∃ a', Automaton.stageHandler env .SUMMARIZING a = Except.ok a'
        ∧ a'.processedInsights = [i₁, i₃]
        ∧ a'.state = State.EVALUATING := by
  intro P I E env a p₁ p₂ p₃ i₁ i₃ e hposts h₁ h₂ h₃
  refine ⟨Automaton.summarizeH env a, rfl, ?_, rfl⟩
  simp [Automaton.summarizeH, hposts, h₁, h₂, h₃]

/-- Environment for the C7 witness: processing post `2` raises, the
others yield insights `10` and `30`. -/
def c7Env : Automaton.Env Nat Nat String :=
  { initResult := .ok ()
    sourcePulls := []
    process := fun p => if p = 2 then .error "processing failed" else .ok (some (p * 10))
    now := ""
    unsupportedStateError := "AutomatonError: Unsupported state" }

/-- An automaton that has pulled the three posts `1`, `2`, `3`. -/
def c7Auto : Auto Nat Nat String :=
  { (Automaton.freshAuto : Auto Nat Nat String) with
      state := .SUMMARIZING
      pulledPosts := [1, 2, 3] }

/-- Closed witness for C7 at a concrete environment. -/
theorem c7_summarize_partial_failure_isolation_witness :
    ∃ a', Automaton.stageHandler c7Env .SUMMARIZING c7Auto = Except.ok a'
      ∧ a'.processedInsights = [10, 30]
      ∧ a'.state = State.EVALUATING :=
  c7_summarize_partial_failure_isolation Nat Nat String c7Env c7Auto 1 2 3 10 30
    "processing failed" rfl rfl rfl rfl

/-! ## CheckpointManager (`src/watchcat/workflow/checkpoint/manager.py`,
`src/watchcat/workflow/checkpoint/serializers.py`)

`save_checkpoint` builds a checkpoint record (timestamp, state value,
retry count, user model, serialized posts, insights, notifications) and
hands it to `_store_checkpoint`; `restore_checkpoint` asks
`_query_latest_checkpoint` for the latest record and deserializes its
posts.  In the source, `_store_checkpoint` is a placeholder whose body is
`pass` (it stores nothing), `_query_latest_checkpoint` is a placeholder
that returns `None`, and `PostSerializer.deserialize_posts` is a
placeholder that returns `[]`; they are embedded exactly as written.
The store state is therefore `Unit`.
-/

/-- The checkpoint record assembled by `save_checkpoint` /
returned by `restore_checkpoint`, over an arbitrary representation of
posts and insights. -/
structure CheckpointData (PostRepr Ins : Type) where
  timestamp : String
  state : State
  retryCount : Nat
  userModel : UserModel
  pulledPosts : List PostRepr
  processedInsights : List Ins
  notificationsSent : List Notification
deriving DecidableEq

namespace PostSerializer

/-- `PostSerializer.serialize_posts`: serialize each post, skipping
(per-post `try/except continue`) any post whose serialization fails. -/
def serialize_posts {P SP : Type} (ser : P → Option SP) (posts : List P) : List SP :=
  posts.foldl
    (fun acc p =>
      match ser p with
      | some sp => acc ++ [sp]
      | none => acc)
    []

/-- `PostSerializer.deserialize_posts`: the source is a placeholder that
returns the empty list for every input ("For now, return empty list
since we don't have concrete Post classes"). -/
def deserialize_posts {P SP : Type} (serialized : List SP) : List P := []

end PostSerializer

namespace CheckpointManager

/-- `CheckpointManager._store_checkpoint`: the source's body is `pass` —
the datastore is left untouched and the record is dropped. -/
def store_checkpoint {SP Ins : Type} (σ : Unit) (checkpointData : CheckpointData SP Ins) :
    Unit := σ

/-- `CheckpointManager._query_latest_checkpoint`: the source is a
placeholder that returns `None` for every store. -/
def query_latest_checkpoint (SP Ins : Type) (σ : Unit) : Option (CheckpointData SP Ins) :=
  none

/-- `CheckpointManager.save_checkpoint`: build the checkpoint record
(with posts serialized by the `PostSerializer`) and store it. -/
def save_checkpoint {P SP Ins : Type} (σ : Unit) (ser : P → Option SP)
    (timestamp : String) (state : State) (retryCount : Nat) (userModel : UserModel)
    (pulledPosts : List P) (processedInsights : List Ins)
    (notificationsSent : List Notification) : Unit :=
  store_checkpoint σ
    { timestamp := timestamp
      state := state
      retryCount := retryCount
      userModel := userModel
      pulledPosts := PostSerializer.serialize_posts ser pulledPosts
      processedInsights := processedInsights
      notificationsSent := notificationsSent }

/-- `CheckpointManager.restore_checkpoint`: return the latest stored
record with its posts deserialized, or `None` when the query yields
nothing. -/
def restore_checkpoint (P SP Ins : Type) (σ : Unit) : Option (CheckpointData P Ins) :=
  match query_latest_checkpoint SP Ins σ with
  | some cd =>
      some
        { timestamp := cd.timestamp
          state := cd.state
          retryCount := cd.retryCount
          userModel := cd.userModel
          pulledPosts := PostSerializer.deserialize_posts cd.pulledPosts
          processedInsights := cd.processedInsights
          notificationsSent := cd.notificationsSent }
  | none => none

end CheckpointManager

/-- Claim C3 (evaluation at the failing input): a `save_checkpoint`
immediately followed by `restore_checkpoint` yields `None` — no
checkpoint data at all, not a record equal to what was saved — because
`_store_checkpoint` is a `pass` placeholder and
`_query_latest_checkpoint` always returns `None`. -/
theorem c3_restore_after_save_returns_none :
    CheckpointManager.restore_checkpoint Nat Nat Nat
        (CheckpointManager.save_checkpoint () (fun p : Nat => some p)
          "2026-01-01T00:00:00+00:00" State.PULLING 0 none [1, 2] ([7] : List Nat) [])
      = none := rfl

/-! ## PluginRegistry / PluginFactory
(`src/watchcat/workflow/plugins/registry.py`, `factory.py`)

`_register_sources` iterates the `sources` configuration section; for
each entry it reads `type` and `enabled` (defaulting to `True`), skips
disabled entries, asks `PluginFactory.create_source` for an instance and
appends it only when the factory result is not `None`.  The source's
`create_source` is a placeholder: it logs the warning "Source creation
not implemented for type: ..." and returns `None` for every kind; it is
embedded exactly as written.
-/

/-- One entry of the `sources` configuration section: the fields
`_register_sources` reads (`type`, and `enabled` with `none` meaning the
key is absent and the `config.get("enabled", True)` default applies). -/
structure SourceConfig where
  stype : Option String
  enabled : Option Bool
deriving DecidableEq, Repr

/-- A registered source instance (identified by its id). -/
structure SourcePlugin where
  id : String
deriving DecidableEq, Repr

namespace PluginFactory

/-- `PluginFactory.create_source`: the source is a placeholder that
warns "Source creation not implemented for type: ..." and returns `None`
for every `source_type`. -/
def create_source (sourceId : String) (sourceType : Option String)
    (config : SourceConfig) : Option SourcePlugin :=
  none

end PluginFactory

namespace PluginRegistry

/-- `PluginRegistry._register_sources`, parameterized by the factory it
calls: skip entries with `enabled = False` (default `True`); append the
created source only when the factory result is not `None`. -/
def register_sources
    (factory : String → Option String → SourceConfig → Option SourcePlugin)
    (sourcesConfig : List (String × SourceConfig)) : List SourcePlugin :=
  sourcesConfig.foldl
    (fun acc entry =>
      if entry.2.enabled.getD true then
        match factory entry.1 entry.2.stype entry.2 with
        | some s => acc ++ [s]
        | none => acc
      else acc)
    []

end PluginRegistry

/-- Claim C4 (evaluation at the failing input): with one enabled and one
disabled source configured, `_register_sources` with the source's
`create_source` ends with an empty `sources` list — not one entry — since
the placeholder factory returns `None` for every kind (the `None` is
dropped, as the claim's second half says, but consequently the enabled
source is never registered). -/
theorem c4_register_sources_with_stub_factory_is_empty :
    PluginRegistry.register_sources PluginFactory.create_source
        [("arxiv-cs", ⟨some "arxiv", some true⟩),
         ("mail-inbox", ⟨some "mail", some false⟩)]
      = []
    ∧ (PluginRegistry.register_sources PluginFactory.create_source
        [("arxiv-cs", ⟨some "arxiv", some true⟩),
         ("mail-inbox", ⟨some "mail", some false⟩)]).length ≠ 1 :=
  ⟨rfl, by decide⟩

/-! ## `datetime` model

Python's `datetime` (standard library) is external to the repository; the
source relies only on `isoformat` producing a string and `fromisoformat`
being its exact inverse (`datetime.fromisoformat(d.isoformat()) == d` is
the documented stdlib contract that `ArxivPaper.from_serializable_object`
depends on).  A datetime is modelled as an abstract instant (`stamp`) and
`isoformat` / `fromisoformat` as an injective textual encoding of that
instant together with its inverse, proved to round-trip below.
-/

/-- The decimal digit character for `d` (`d < 10`). -/
def charOfDigit (d : Nat) : Char := Char.ofNat (d + 48)

/-- The numeric value of a decimal digit character. -/
def digitOfChar (c : Char) : Nat := c.toNat - 48

theorem digitOfChar_charOfDigit {d : Nat} (hd : d < 10) :
    digitOfChar (charOfDigit d) = d := by
  interval_cases d <;> decide

theorem isDigit_charOfDigit {d : Nat} (hd : d < 10) :
    (charOfDigit d).isDigit = true := by
  interval_cases d <;> decide

/-- A `datetime` instant. -/
structure PyDateTime where
  stamp : Nat
deriving DecidableEq, Repr

/-- `datetime.isoformat`: a textual encoding of the instant (most
significant digit first). -/
def PyDateTime.isoformat (t : PyDateTime) : String :=
  String.mk (((Nat.digits 10 t.stamp).map charOfDigit).reverse)

/-- `datetime.fromisoformat`: parse the textual encoding back; a
non-parsable string raises `ValueError`, modelled as `none`. -/
def PyDateTime.fromisoformat (s : String) : Option PyDateTime :=
  if s.data.all Char.isDigit then
    some ⟨Nat.ofDigits 10 ((s.data.map digitOfChar).reverse)⟩
  else none

/-- The stdlib contract: `fromisoformat` inverts `isoformat`. -/
theorem PyDateTime.fromisoformat_isoformat (t : PyDateTime) :
    PyDateTime.fromisoformat t.isoformat = some t := by
  have hdig : ∀ d ∈ Nat.digits 10 t.stamp, d < 10 := fun d hd =>
    Nat.digits_lt_base (by omega) hd
  have hdata : (PyDateTime.isoformat t).data
      = ((Nat.digits 10 t.stamp).map charOfDigit).reverse := rfl
  have hall : (((Nat.digits 10 t.stamp).map charOfDigit).reverse).all Char.isDigit = true := by
    rw [List.all_eq_true]
    intro c hc
    rw [List.mem_reverse, List.mem_map] at hc
    obtain ⟨d, hd, rfl⟩ := hc
    exact isDigit_charOfDigit (hdig d hd)
  rw [PyDateTime.fromisoformat, hdata, hall, if_pos rfl]
  have hmap :
      ((((Nat.digits 10 t.stamp).map charOfDigit).reverse).map digitOfChar).reverse
        = Nat.digits 10 t.stamp := by
    rw [List.map_reverse, List.reverse_reverse, List.map_map]
    have : ∀ d ∈ Nat.digits 10 t.stamp, (digitOfChar ∘ charOfDigit) d = d := fun d hd =>
      digitOfChar_charOfDigit (hdig d hd)
    rw [List.map_congr_left this]
    exact List.map_id _
  rw [hmap, Nat.ofDigits_digits]

/-! ## ArxivPaper (`src/watchcat/puller/arxiv_paper.py`)

`__init__` stores `self.id`, `self.url`, `self.paper_url`,
`self.__published_date` (written inside `class ArxivPaper`, hence
name-mangled to the instance attribute `_ArxivPaper__published_date`),
`self.pull_date` (the given `pulled_date` when not `None`), `self.source`,
`self.abstract` and `self.title`; the class exposes the read-only
properties `published_date`, `pulled_date` and `attachments`
(`[self.paper_url]`). -/

structure ArxivPaper where
  id : String
  url : String
  paper_url : String
  published_date : PyDateTime
  pull_date : PyDateTime
  source : String
  abstract : String
  title : String
deriving DecidableEq, Repr

/-- `ArxivPaper.serializable_object`: the flat string-keyed record, in
the source's key order, with both dates rendered via `isoformat`. -/
def ArxivPaper.serializable_object (p : ArxivPaper) : List (String × String) :=
  [("id", p.id),
   ("url", p.url),
   ("title", p.title),
   ("paper_url", p.paper_url),
   ("publish_date", p.published_date.isoformat),
   ("pull_date", p.pull_date.isoformat),
   ("source", p.source),
   ("abstract", p.abstract)]

/-- `ArxivPaper.from_serializable_object`: rebuild via the constructor,
reading the keys in the order of the source's keyword arguments; a
missing key (`KeyError`) or an unparsable date (`ValueError` from
`fromisoformat`) is modelled as `none`.  `pulled_date` is passed
explicitly, so `__init__` does not substitute `datetime.now()`. -/
def ArxivPaper.from_serializable_object (obj : List (String × String)) :
    Option ArxivPaper := do
  let id ← obj.lookup "id"
  let url ← obj.lookup "url"
  let paper_url ← obj.lookup "paper_url"
  let publish_date ← PyDateTime.fromisoformat (← obj.lookup "publish_date")
  let title ← obj.lookup "title"
  let abstract ← obj.lookup "abstract"
  let pulled_date ← PyDateTime.fromisoformat (← obj.lookup "pull_date")
  let source ← obj.lookup "source"
  some
    { id := id
      url := url
      paper_url := paper_url
      published_date := publish_date
      pull_date := pulled_date
      source := source
      abstract := abstract
      title := title }

/-- Claim C9: for every `ArxivPaper`, the round trip
`ArxivPaper.from_serializable_object(paper.serializable_object())`
rebuilds the paper exactly — in particular it preserves `id`, `url`,
`source`, `published_date`, `pulled_date` and the kind-specific content
fields `title`, `abstract` and `paper_url`. -/
theorem c9_arxiv_paper_roundtrip (p : ArxivPaper) :
    ArxivPaper.from_serializable_object p.serializable_object = some p := by
  obtain ⟨id, url, paper_url, pd, pld, source, abstract, title⟩ := p
  simp [ArxivPaper.serializable_object, ArxivPaper.from_serializable_object,
    List.lookup, PyDateTime.fromisoformat_isoformat]

/-! ## ArxivFilter (`src/watchcat/puller/arxiv.py`)

`ArxivFilter.__call__` first returns `False` for non-`ArxivPaper` posts
(the embedding types the post as `ArxivPaper`, so that guard passes),
then dispatches on the filter kind.  The `DATE` branch, when both
`"start"` and `"end"` are present in `filter_args`, evaluates
`start_date <= post.__published_date <= end_date`; the attribute
reference `post.__published_date` occurs inside `class ArxivFilter`, so
Python name-mangles it to `post._ArxivFilter__published_date` — an
attribute no `ArxivPaper` instance defines (instances carry
`_ArxivPaper__published_date` and the `published_date` property), so the
lookup raises `AttributeError` before any comparison happens.
-/

inductive ArxivFilterKind where
  | TITLE
  | AUTHOR
  | DATE
  | ABSTRACT
deriving DecidableEq, Repr

/-- A Python value stored in `filter_args` or an instance attribute. -/
inductive AttrValue where
  | vstr (s : String)
  | vdate (t : PyDateTime)
  | vlist (xs : List String)
deriving DecidableEq, Repr

/-- Python attribute lookup on an `ArxivPaper` instance: the attributes
set by `__init__` (with `self.__published_date` mangled to
`_ArxivPaper__published_date`) plus the class properties; any other name
raises `AttributeError`. -/
def ArxivPaper.getattr (p : ArxivPaper) : String → Except PyError AttrValue
  | "id" => .ok (.vstr p.id)
  | "url" => .ok (.vstr p.url)
  | "paper_url" => .ok (.vstr p.paper_url)
  | "_ArxivPaper__published_date" => .ok (.vdate p.published_date)
  | "pull_date" => .ok (.vdate p.pull_date)
  | "source" => .ok (.vstr p.source)
  | "abstract" => .ok (.vstr p.abstract)
  | "title" => .ok (.vstr p.title)
  | "published_date" => .ok (.vdate p.published_date)
  | "pulled_date" => .ok (.vdate p.pull_date)
  | "attachments" => .ok (.vlist [p.paper_url])
  | _ => .error .attributeError

/-- Python `str.lower`. -/
def pyLower (s : String) : String := String.mk (s.data.map Char.toLower)

/-- Python `needle in hay` on strings: substring containment. -/
def pyContains (needle hay : String) : Bool := decide (needle.data <:+: hay.data)

namespace ArxivFilter

/-- `ArxivFilter.__call__` for a filter of the given kind with the given
`filter_args`, applied to an `ArxivPaper`.  Branches whose `filter_args`
key is absent fall through to the final `return False`.  Calling `.lower()`
on a non-string argument would raise `AttributeError`; in the `DATE`
branch the mangled attribute lookup happens before the chained comparison
(whose mixed-type failure would be a `ValueError`-like error, modelled
below, but is unreachable). -/
def call (kind : ArxivFilterKind) (filter_args : List (String × AttrValue))
    (post : ArxivPaper) : Except PyError Bool :=
  match kind with
  | .TITLE =>
      match filter_args.lookup "term" with
      | some (.vstr term) =>
          let t := pyLower term
          .ok (pyContains t (pyLower post.url) || pyContains t (pyLower post.source)
            || pyContains t (pyLower post.abstract))
      | some _ => .error .attributeError
      | none => .ok false
  | .AUTHOR =>
      match filter_args.lookup "name" with
      | some (.vstr nm) =>
          let n := pyLower nm
          .ok (pyContains n (pyLower post.abstract) || pyContains n (pyLower post.source))
      | some _ => .error .attributeError
      | none => .ok false
  | .ABSTRACT =>
      match filter_args.lookup "term" with
      | some (.vstr term) =>
          let t := pyLower term
          .ok (pyContains t (pyLower post.abstract))
      | some _ => .error .attributeError
      | none => .ok false
  | .DATE =>
      match filter_args.lookup "start", filter_args.lookup "end" with
      | some s, some e =>
          match post.getattr "_ArxivFilter__published_date" with
          | .error err => .error err
          | .ok v =>
              match s, v, e with
              | .vdate sd, .vdate pv, .vdate ed =>
                  .ok (decide (sd.stamp ≤ pv.stamp) && decide (pv.stamp ≤ ed.stamp))
              | _, _, _ => .error (.valueError "unorderable types")
      | _, _ => .ok false

end ArxivFilter

/-- Claim C10: for every `ArxivPaper` post, calling an `ArxivFilter` of
kind `DATE` whose `filter_args` contain both `"start"` and `"end"`
raises `AttributeError` instead of returning a boolean: the filter reads
`post.__published_date`, name-mangled to
`_ArxivFilter__published_date`, which `ArxivPaper` never defines. -/
theorem c10_date_filter_raises_attribute_error :
    ∀ (p : ArxivPaper) (args : List (String × AttrValue)) (s e : AttrValue),
      args.lookup "start" = some s →
      args.lookup "end" = some e →
      ArxivFilter.call .DATE args p = .error .attributeError := by
  intro p args s e hs he
  simp [ArxivFilter.call, hs, he, ArxivPaper.getattr]

/-- A concrete paper for the C10 witness. -/
def c10Paper : ArxivPaper :=
  { id := "2101.00001"
    url := "http://arxiv.org/abs/2101.00001"
    paper_url := "https://arxiv.org/pdf/2101.00001.pdf"
    published_date := ⟨20210101⟩
    pull_date := ⟨20260101⟩
    source := "ArXiv: Example"
    abstract := "An abstract"
    title := "Example" }

/-- Closed witness for C10 at a concrete paper and date range. -/
theorem c10_date_filter_raises_attribute_error_witness :
    ArxivFilter.call .DATE
        [("start", .vdate ⟨20200101⟩), ("end", .vdate ⟨20211231⟩)] c10Paper
      = .error .attributeError :=
  c10_date_filter_raises_attribute_error c10Paper
    [("start", .vdate ⟨20200101⟩), ("end", .vdate ⟨20211231⟩)]
    (.vdate ⟨20200101⟩) (.vdate ⟨20211231⟩) rfl rfl

end Watchcat
